import Mathlib

/-!
Shallow embedding of the media-db data-access layer of `ckot/assets-mgr`
(`src/libs/media-db`): the error helpers, the validation helpers, the result
envelopes, the generic pagination engine `getPaginated`, and the store-level
operations the claims touch.  JavaScript numbers supplied by callers are
modelled as `Rat` (so that non-integer inputs are expressible); a function
that can throw is modelled as `Except DbError`, where `Except.error e` is a
raised exception carrying `e`.
-/

namespace AssetsMgr

/-- Errors raised by the storage collaborator or by validation, mirroring the
cases distinguished by `generatePrismaErrorMessage` in `helpers.ts`:
a `PrismaClientKnownRequestError` (with `code`, `message` and the relevant
`meta` field), a `PrismaClientValidationError`, and the catch-all for every
other thrown value (zod validation errors, plain `Error`s), carrying its
message. -/
inductive DbError where
  | knownRequest (code : String) (message : String) (meta : String)
  | validationErr (message : String)
  | other (message : String)
deriving DecidableEq

/-- Embedding of `generatePrismaErrorMessage` from `helpers.ts`: maps a raised
error to the standardized message string. -/
def generatePrismaErrorMessage : DbError → String
  | .knownRequest code message meta =>
    if code = "P2025" then "Record not found: " ++ meta
    else if code = "P2016" then "Record does not exist: " ++ meta
    else if code = "P2002" then "Unique constraint violation: " ++ meta
    else "Database error: " ++ message
  | .validationErr message => "Validation error: " ++ message
  | .other message => "Unexpected error: " ++ message

/-- Message carried by the raised zod error when a positive-integer check
fails. -/
def invalidPosIntMsg : String := "Number must be a positive integer"

/-- Message carried by the raised zod error when a non-empty-array-of-
positive-integers check fails. -/
def invalidTagArrayMsg : String := "Array must contain positive integers and must not be empty"

/-- Modelled from the spec: `schemas.positiveInteger.parse` (the file
`schemas.ts` is not among the sources).  The spec's validation collaborator
"asserts positive integer ... shapes"; zod's `parse` returns the value on
success and throws on failure.  A JS number is modelled as a `Rat`: the check
accepts exactly the positive integers (denominator 1, positive numerator) and
raises otherwise. -/
def positiveIntegerParse (q : Rat) : Except DbError Nat :=
  if q.den = 1 ∧ 0 < q.num then .ok q.num.toNat
  else .error (.other invalidPosIntMsg)

/-- Modelled from the spec: `schemas.nonEmptyArrayOfPositiveIntegers.parse`
(the file `schemas.ts` is not among the sources).  Accepts a non-empty array
each of whose elements is a positive integer, raising otherwise. -/
def nonEmptyArrayOfPositiveIntegersParse (xs : List Rat) :
    Except DbError (List Nat) :=
  if xs.isEmpty then .error (.other invalidTagArrayMsg)
  else if xs.all (fun q => q.den = 1 ∧ 0 < q.num) then
    .ok (xs.map (fun q => q.num.toNat))
  else .error (.other invalidTagArrayMsg)

/-- Embedding of the `PaginationParams` interface from `types.ts`: the
validated page number and page size. -/
structure PaginationParams where
  pageNum : Nat
  numPerPage : Nat
deriving DecidableEq

/-- Embedding of `validatePaginationParams` from `helpers.ts`: parses both
numbers with the positive-integer schema, raising (propagating the zod error)
if either fails. -/
def validatePaginationParams (page pageSize : Rat) :
    Except DbError PaginationParams := do
  let pageNum ← positiveIntegerParse page
  let numPerPage ← positiveIntegerParse pageSize
  return { pageNum, numPerPage }

/-- Embedding of the `CreateResult<T>` envelope from `types.ts`.  The
optional `data` field is an `Option`. -/
structure CreateResult (T : Type) where
  success : Bool
  created : Bool
  data? : Option T
  message : String
deriving DecidableEq

/-- Embedding of the `RetrieveResult<T>` envelope from `types.ts`. -/
structure RetrieveResult (T : Type) where
  success : Bool
  found : Bool
  data? : Option T
  message : String
deriving DecidableEq

/-- Embedding of `creationSuccessful` from `helpers.ts`. -/
def creationSuccessful {T : Type} (data : T) (label : String) : CreateResult T :=
  { success := true, created := true, data? := some data,
    message := label ++ " created successfully." }

/-- Embedding of `creationFoundPrexisting` from `helpers.ts`. -/
def creationFoundPrexisting {T : Type} (data : T) (label : String) :
    CreateResult T :=
  { success := true, created := false, data? := some data,
    message := label ++ " already exists." }

/-- Embedding of `creationFailure` from `helpers.ts` (note: `success` is
`true` and `data` is absent). -/
def creationFailure (T : Type) (label : String) : CreateResult T :=
  { success := true, created := false, data? := none,
    message := label ++ " not found." }

/-- Embedding of `creationError` from `helpers.ts`. -/
def creationError (T : Type) (message : String) : CreateResult T :=
  { success := false, created := false, data? := none, message }

/-- Embedding of `retrievalSuccessful` from `helpers.ts`. -/
def retrievalSuccessful {T : Type} (data : T) (label : String) :
    RetrieveResult T :=
  { success := true, found := true, data? := some data,
    message := label ++ " retrieved successfully." }

/-- Embedding of `retrievalNotFound` from `helpers.ts`. -/
def retrievalNotFound (T : Type) (typeName : String) : RetrieveResult T :=
  { success := true, found := false, data? := none,
    message := typeName ++ " not found." }

/-- Embedding of `retrievalError` from `helpers.ts`. -/
def retrievalError (T : Type) (message : String) : RetrieveResult T :=
  { success := false, found := false, data? := none, message }

/-- Embedding of the `PaginatedResult<T>` envelope from `types.ts`: the
optional `data` array, the `total` count, and the echoed `page`/`pageSize`
(which in the source are the validated positive integers). -/
structure PaginatedResult (T : Type) where
  success : Bool
  data? : Option (List T)
  message : String
  total : Nat
  page : Nat
  pageSize : Nat
deriving DecidableEq

/-- Embedding of `DEFAULT_PAGE_NUMBER` from `constants.ts`. -/
def DEFAULT_PAGE_NUMBER : Nat := 1

/-- Embedding of `DEFAULT_PAGE_SIZE` from `constants.ts`. -/
def DEFAULT_PAGE_SIZE : Nat := 25

/-- The argument object passed to the storage collaborator's `findMany`
(`{where, include?, orderBy?, skip, take}`), as assembled by `getPaginated`
in `run-prisma.ts`: the spread `...(include ? {include} : {})` is modelled by
an `Option` field. -/
structure FindManyArgs (W I O : Type) where
  whereClause : W
  includeClause : Option I
  orderByClause : Option O
  skip : Nat
  take : Nat
deriving DecidableEq

/-- A storage call issued by the pagination engine: either a `findMany` with
its full argument object or a `count` with its where clause.  The engine
returns the list of calls it issued, so that "no storage call is issued" and
"issues a bounded fetch" are stateable. -/
inductive StorageCall (W I O : Type) where
  | findMany (args : FindManyArgs W I O)
  | count (whereClause : W)
deriving DecidableEq

/-- The storage collaborator for one model: `findMany` and `count`, each of
which may raise. -/
structure PageModel (T W I O : Type) where
  findMany : FindManyArgs W I O → Except DbError (List T)
  count : W → Except DbError Nat

/-- Embedding of `DBController.getPaginated` from `run-prisma.ts`.  Mirrors
the source exactly: `validatePaginationParams` runs BEFORE the try block, so
a validation error is raised (first component `Except.error`) with no storage
call issued; inside the try, `findMany` is issued with
`skip = (pageNum - 1) * numPerPage` and `take = numPerPage`, then `count`
with the same where clause; any storage fault is caught and converted into a
`success := false` envelope with no `data` field and `total := 0`; on
success the envelope carries the rows, the count, and the validated
page/pageSize.  The second component is the list of storage calls issued (a
call that raised is still recorded as issued; a call never reached is not). -/
def getPaginated {T W I O : Type} (model : PageModel T W I O)
    (whereClause : W) (includeClause : Option I) (orderByClause : Option O)
    (page : Rat := (DEFAULT_PAGE_NUMBER : Rat))
    (pageSize : Rat := (DEFAULT_PAGE_SIZE : Rat)) :
    Except DbError (PaginatedResult T) × List (StorageCall W I O) :=
  match validatePaginationParams page pageSize with
  | .error e => (.error e, [])
  | .ok p =>
    let args : FindManyArgs W I O :=
      { whereClause, includeClause, orderByClause,
        skip := (p.pageNum - 1) * p.numPerPage, take := p.numPerPage }
    match model.findMany args with
    | .error e =>
      (.ok { success := false, data? := none,
             message := generatePrismaErrorMessage e, total := 0,
             page := p.pageNum, pageSize := p.numPerPage },
       [.findMany args])
    | .ok rows =>
      match model.count whereClause with
      | .error e =>
        (.ok { success := false, data? := none,
               message := generatePrismaErrorMessage e, total := 0,
               page := p.pageNum, pageSize := p.numPerPage },
         [.findMany args, .count whereClause])
      | .ok total =>
        (.ok { success := true, data? := some rows,
               message := "Data retrieved successfully", total,
               page := p.pageNum, pageSize := p.numPerPage },
         [.findMany args, .count whereClause])

/-- Modelled from the spec: the storage collaborator's semantics (§6 of the
spec: "a relational engine accessed through a repository-style interface
offering, per entity, `findMany({where, include, orderBy, skip, take}) ->
rows` and `count({where}) -> integer`"; the engine itself is external to the
repository).  The stored rows are a list; a where clause is a predicate; a
`findMany` returns the matching rows after `skip` and `take`, a `count`
returns the number of matching rows; neither raises. -/
def listModel {T : Type} (rows : List T) :
    PageModel T (T → Bool) Unit Unit :=
  { findMany := fun args =>
      .ok (((rows.filter args.whereClause).drop args.skip).take args.take)
    count := fun whereClause => .ok (rows.filter whereClause).length }

/-- Embedding of the `Tag` row from `schema.prisma`: identity and unique
name (timestamps elided; no claim mentions them). -/
structure TagRow where
  id : Nat
  name : String
deriving DecidableEq

/-- Embedding of the `Website` row from `schema.prisma`: identity and unique
url (optional name and timestamps elided; no claim mentions them). -/
structure WebsiteRow where
  id : Nat
  url : String
deriving DecidableEq

/-- Embedding of the `Board` row from `schema.prisma`: identity, name,
optional self-referential parent, owning website (optional description/url
and timestamps elided; no claim mentions them). -/
structure BoardRow where
  id : Nat
  name : String
  parentId : Option Nat
  websiteId : Nat
deriving DecidableEq

/-- Embedding of the `MediaFile` row from `schema.prisma`, reduced to
identity and its set of tag ids (the many-to-many relation; the scalar
payload fields are elided; no claim mentions them). -/
structure MediaFileRow where
  id : Nat
  tagIDs : List Nat
deriving DecidableEq

/-- Whether inserting board `b` would violate the unique composite index
declared on the `Board` model in `schema.prisma`, line 82:
`@@unique([name, parentId, websiteId])`, under the NULL semantics of the
schema's datasource (`schema.prisma` line 12: `provider = "sqlite"`).  A
SQLite unique index treats NULLs as distinct, so a row whose nullable
`parentId` is NULL never conflicts with any row — not even one that also
has a NULL `parentId` and the same name and website; a row with a non-null
`parentId` conflicts exactly with an existing row agreeing on all three of
name, parentId and websiteId (such a row necessarily has the same non-null
parent). -/
def boardIndexConflict (bs : List BoardRow) (b : BoardRow) : Bool :=
  b.parentId.isSome &&
    bs.any (fun c => c.name == b.name && c.parentId == b.parentId &&
      c.websiteId == b.websiteId)

/-- The board states reachable under the schema's unique composite index:
starting from the empty table, a row can be inserted exactly when it does
not conflict with the `@@unique([name, parentId, websiteId])` index under
SQLite's NULL-distinct semantics. -/
inductive ReachableBoards : List BoardRow → Prop where
  | nil : ReachableBoards []
  | insert (bs : List BoardRow) (b : BoardRow) (h : ReachableBoards bs)
      (hu : boardIndexConflict bs b = false) : ReachableBoards (b :: bs)

/-- The in-memory relational store backing the DBController operations that
the claims touch: the `Website`, `Board` and `Tag` tables. -/
structure Store where
  websites : List WebsiteRow
  boards : List BoardRow
  tags : List TagRow
deriving DecidableEq

/-- Embedding of the `findUnique` lookup on the compound key
`uniqueBoardNamesPerWebsite: {name, websiteID}` used by `createWebsiteBoard`
in `run-prisma.ts`: the board of this website with this name, if any. -/
def findBoardByNameWebsite (bs : List BoardRow) (name : String)
    (websiteId : Nat) : Option BoardRow :=
  bs.find? (fun b => b.name == name && b.websiteId == websiteId)

/-- A fresh autoincremented id for a table projected to its ids. -/
def nextId (ids : List Nat) : Nat := ids.foldr max 0 + 1

/-- Embedding of the tag side-effect block of `createWebsiteBoard`
(`run-prisma.ts` lines 387–395): look the tag named after the board up by
its unique name, and create it when absent. -/
def ensureTag (tags : List TagRow) (name : String) : List TagRow :=
  match tags.find? (fun t => t.name == name) with
  | some _ => tags
  | none =>
    tags ++ [{ id := nextId (tags.map (fun t => t.id)), name := name }]

/-- Embedding of the success tail of `createWebsiteBoard` (`run-prisma.ts`
lines 383–396): create the board row (with the given optional parent),
ensure the tag named after it exists, and return the `creationSuccessful`
envelope together with the updated store. -/
def finishBoardCreate (store : Store) (boardName : String)
    (websiteId : Nat) (parentId : Option Nat) :
    CreateResult BoardRow × Store :=
  let newBoard : BoardRow :=
    { id := nextId (store.boards.map (fun b => b.id)),
      name := boardName, parentId := parentId, websiteId := websiteId }
  (creationSuccessful newBoard ("Board"),
   { websites := store.websites,
     boards := store.boards ++ [newBoard],
     tags := ensureTag store.tags boardName })

/-- Embedding of `DBController.createWebsiteBoard` from `run-prisma.ts`,
with the storage collaborator modelled as the in-memory `Store` (storage
operations on the concrete store are pure, so the catch branch for storage
faults is unreachable here; the positive-integer validation of `websiteID`
sits INSIDE the try in the source, so its failure is caught and returned as
a `creationError` envelope).  Step for step: validate `websiteID`; look up
the website (absent ⇒ `creationFailure`); look up a board with the same
`(name, websiteID)` pair (present ⇒ `creationFoundPrexisting`); if a parent
board name is given, look it up on the same website (absent ⇒
`creationFailure`); then create the board, ensure the tag named after it
exists, and return `creationSuccessful` (`finishBoardCreate`).  Returns the
envelope and the store after the operation. -/
def createWebsiteBoard (store : Store) (websiteID : Rat) (boardName : String)
    (parentBoardName : Option String := none) :
    CreateResult BoardRow × Store :=
  match positiveIntegerParse websiteID with
  | .error e => (creationError BoardRow (generatePrismaErrorMessage e), store)
  | .ok validatedWebsiteID =>
    match store.websites.find? (fun w => w.id == validatedWebsiteID) with
    | none => (creationFailure BoardRow ("Website"), store)
    | some website =>
      match findBoardByNameWebsite store.boards boardName website.id with
      | some preExisting =>
        (creationFoundPrexisting preExisting ("Website/Board pair"), store)
      | none =>
        match parentBoardName with
        | none => finishBoardCreate store boardName website.id none
        | some pname =>
          match findBoardByNameWebsite store.boards pname website.id with
          | none =>
            (creationFailure BoardRow ("Parent Board on Website"), store)
          | some parentBoard =>
            finishBoardCreate store boardName website.id
              (some parentBoard.id)

/-- The storage collaborator for the `Tag` model as used by `createTag`:
`findUnique` by name and `create`, each of which may raise. -/
structure TagStoreModel where
  findUniqueByName : String → Except DbError (Option TagRow)
  create : String → Except DbError TagRow

/-- Embedding of `DBController.createTag` from `run-prisma.ts` over a
fallible storage collaborator.  The whole body sits inside try/catch, so the
function always returns an envelope: a storage fault in either step is
converted into a `creationError` with the standardized message. -/
def createTag (m : TagStoreModel) (name : String) : CreateResult TagRow :=
  match m.findUniqueByName name with
  | .error e => creationError TagRow (generatePrismaErrorMessage e)
  | .ok (some preExisting) => creationFoundPrexisting preExisting ("Tag")
  | .ok none =>
    match m.create name with
    | .error e => creationError TagRow (generatePrismaErrorMessage e)
    | .ok newTag => creationSuccessful newTag ("Tag")

/-- Embedding of `DBController.getTagByID` from `run-prisma.ts` over a
fallible `findUnique` collaborator.  Mirrors the source exactly: the
positive-integer validation of `tagID` runs BEFORE the try block (line 741
precedes the `try` on line 742), so a validation error is raised
(`Except.error`) rather than returned as an envelope; the default value of
`tagID` is `-1`; storage faults inside the try are caught and returned as a
`retrievalError` envelope. -/
def getTagByID (findUniqueById : Nat → Except DbError (Option TagRow))
    (tagID : Rat := -1) : Except DbError (RetrieveResult TagRow) :=
  match positiveIntegerParse tagID with
  | .error e => .error e
  | .ok validatedTagID =>
    .ok (match findUniqueById validatedTagID with
      | .ok (some tag) => retrievalSuccessful tag ("Tag")
      | .ok none => retrievalNotFound TagRow ("Tag")
      | .error e => retrievalError TagRow (generatePrismaErrorMessage e))

/-- Embedding of `DBController.updateMediaFileTags` from `run-prisma.ts`
over a fallible `update` collaborator.  The validations run before the try;
the try's catch branch calls `handlePrismaError`, which RE-THROWS a plain
`Error` carrying the standardized message — so a storage fault escapes to
the caller as a raised exception (`Except.error`), never as an envelope. -/
def updateMediaFileTags
    (update : Nat → List Nat → Except DbError MediaFileRow)
    (mediaFileID : Rat) (newTagIDs : List Rat) :
    Except DbError MediaFileRow :=
  match positiveIntegerParse mediaFileID with
  | .error e => .error e
  | .ok validMediaFileID =>
    match nonEmptyArrayOfPositiveIntegersParse newTagIDs with
    | .error e => .error e
    | .ok validTags =>
      match update validMediaFileID validTags with
      | .ok mediaFile => .ok mediaFile
      | .error e => .error (.other (generatePrismaErrorMessage e))

/-- Embedding of `DEFAULT_MEDIA_FILE_INCLUDES` from `constants.ts`
(`{tags: true}`). -/
structure MediaFileInclude where
  tags : Bool
deriving DecidableEq

/-- The default include clause for media files, `{tags: true}`. -/
def DEFAULT_MEDIA_FILE_INCLUDES : MediaFileInclude := { tags := true }

/-- Embedding of `DBController.getMediaFilesWithTags` from `run-prisma.ts`.
The where clause sent to storage is the AND-list of per-tag conditions,
modelled as the list of validated tag ids.  The source's parameter defaults
are reproduced verbatim: `page = DEFAULT_PAGE_SIZE` (line 964 — not
`DEFAULT_PAGE_NUMBER`) and `pageSize = DEFAULT_PAGE_SIZE`.  The tag-array
validation runs outside any try, so its failure is raised with no storage
call; the rest forwards to `getPaginated` through `getPaginatedMediaFiles`,
which supplies the default include `{tags: true}` and the default (empty,
but truthy in JS, hence forwarded) orderBy object, modelled as `some ()`. -/
def getMediaFilesWithTags
    (model : PageModel MediaFileRow (List Nat) MediaFileInclude Unit)
    (tagIDs : List Rat)
    (page : Rat := (DEFAULT_PAGE_SIZE : Rat))
    (pageSize : Rat := (DEFAULT_PAGE_SIZE : Rat)) :
    Except DbError (PaginatedResult MediaFileRow) ×
      List (StorageCall (List Nat) MediaFileInclude Unit) :=
  match nonEmptyArrayOfPositiveIntegersParse tagIDs with
  | .error e => (.error e, [])
  | .ok validTags =>
    getPaginated model validTags (some DEFAULT_MEDIA_FILE_INCLUDES)
      (some ()) page pageSize

/-! ### Helper lemmas about validation -/

/-- The positive-integer schema accepts a positive natural number cast to a
JS number. -/
theorem positiveIntegerParse_natCast (n : Nat) (hn : 1 ≤ n) :
    positiveIntegerParse (n : Rat) = .ok n := by
  unfold positiveIntegerParse
  rw [if_pos]
  · simp
  · exact ⟨Rat.den_natCast n, by exact_mod_cast hn⟩

/-- Pagination validation succeeds on positive natural page and pageSize,
returning them unchanged. -/
theorem validatePaginationParams_natCast (p ps : Nat) (hp : 1 ≤ p)
    (hps : 1 ≤ ps) :
    validatePaginationParams (p : Rat) (ps : Rat) = .ok ⟨p, ps⟩ := by
  unfold validatePaginationParams
  rw [positiveIntegerParse_natCast p hp, positiveIntegerParse_natCast ps hps]
  rfl

/-- Pagination validation raises when either number is not a positive
integer. -/
theorem validatePaginationParams_invalid (page pageSize : Rat)
    (h : ¬(page.den = 1 ∧ 0 < page.num) ∨
         ¬(pageSize.den = 1 ∧ 0 < pageSize.num)) :
    validatePaginationParams page pageSize =
      .error (.other invalidPosIntMsg) := by
  unfold validatePaginationParams positiveIntegerParse
  rcases h with h | h
  · rw [if_neg h]; rfl
  · rcases Decidable.em (page.den = 1 ∧ 0 < page.num) with hp | hp
    · rw [if_pos hp, if_neg h]; rfl
    · rw [if_neg hp]; rfl

/-! ### Concrete collaborators used by witnesses and counterexamples -/

/-- A concrete storage collaborator whose fetch returns `[7, 8]` and whose
count returns `10`. -/
def unitPageModel : PageModel Nat Unit Unit Unit :=
  { findMany := fun _ => .ok [7, 8], count := fun _ => .ok 10 }

/-- A concrete storage collaborator whose fetch raises a known request
error. -/
def failFindModel : PageModel Nat Unit Unit Unit :=
  { findMany := fun _ =>
      .error (.knownRequest ("P2002") ("duplicate") ("hash")),
    count := fun _ => .ok 10 }

/-- A concrete storage collaborator whose fetch succeeds but whose count
raises. -/
def failCountModel : PageModel Nat Unit Unit Unit :=
  { findMany := fun _ => .ok [7, 8],
    count := fun _ => .error (.other ("db down")) }

/-! ### Claim C1 -/

/-- C1: for every valid `page ≥ 1` and `pageSize ≥ 1`, `getPaginated` issues
a bounded fetch with `skip = (page - 1) * pageSize` and `take = pageSize`
applying the caller's filter/include/orderBy, issues a count of all rows
matching the same filter, and on success returns the envelope
`{success: true, data: rows, total: count, page, pageSize, message}`. -/
theorem getPaginated_success_envelope {T W I O : Type}
    (model : PageModel T W I O) (whereClause : W)
    (includeClause : Option I) (orderByClause : Option O)
    (p ps : Nat) (hp : 1 ≤ p) (hps : 1 ≤ ps)
    (rows : List T) (total : Nat)
    (hfind : model.findMany
      ⟨whereClause, includeClause, orderByClause, (p - 1) * ps, ps⟩ =
        .ok rows)
    (hcount : model.count whereClause = .ok total) :
    getPaginated model whereClause includeClause orderByClause
        (p : Rat) (ps : Rat) =
      (.ok { success := true, data? := some rows,
             message := "Data retrieved successfully", total := total,
             page := p, pageSize := ps },
       [.findMany ⟨whereClause, includeClause, orderByClause,
          (p - 1) * ps, ps⟩,
        .count whereClause]) := by
  unfold getPaginated
  rw [validatePaginationParams_natCast p ps hp hps]
  simp only []
  rw [hfind, hcount]

/-- Witness for C1 at `page = 1`, `pageSize = 2` against the concrete
collaborator. -/
theorem getPaginated_success_envelope_witness :
    (1 : Nat) ≤ 1 ∧ (1 : Nat) ≤ 2 ∧
    unitPageModel.findMany ⟨(), none, none, (1 - 1) * 2, 2⟩ = .ok [7, 8] ∧
    unitPageModel.count () = .ok 10 ∧
    getPaginated unitPageModel () none none ((1 : Nat) : Rat)
        ((2 : Nat) : Rat) =
      (.ok { success := true, data? := some [7, 8],
             message := "Data retrieved successfully", total := 10,
             page := 1, pageSize := 2 },
       [.findMany ⟨(), none, none, (1 - 1) * 2, 2⟩, .count ()]) :=
  ⟨by decide, by decide, rfl, rfl,
   getPaginated_success_envelope unitPageModel () none none 1 2
     (by decide) (by decide) [7, 8] 10 rfl rfl⟩

/-! ### Claim C2 -/

/-- C2 counterexample: at `page = 0` (and at `page = -3`) the pagination
operation does NOT return a validation-failure envelope — the first
component of the result is `Except.error` (a raised exception, which is not
`Except.ok env` for any envelope `env`).  The claim's other half does hold:
the list of storage calls issued is empty. -/
theorem getPaginated_page_zero_raises :
    getPaginated unitPageModel () none none 0 25 =
      ((.error (.other invalidPosIntMsg) :
        Except DbError (PaginatedResult Nat)), []) ∧
    getPaginated unitPageModel () none none (-3) 25 =
      ((.error (.other invalidPosIntMsg) :
        Except DbError (PaginatedResult Nat)), []) := by
  constructor <;> rfl

/-- C2 amended: for every invalid `page` or `pageSize` (non-integer, zero or
negative), the pagination operation raises the validation error before any
storage call — no `findMany` or `count` is issued — and the error
propagates to the caller as a raised exception rather than a
`success:false` envelope. -/
theorem getPaginated_invalid_raises {T W I O : Type}
    (model : PageModel T W I O) (whereClause : W)
    (includeClause : Option I) (orderByClause : Option O)
    (page pageSize : Rat)
    (h : ¬(page.den = 1 ∧ 0 < page.num) ∨
         ¬(pageSize.den = 1 ∧ 0 < pageSize.num)) :
    getPaginated model whereClause includeClause orderByClause page
        pageSize =
      (.error (.other invalidPosIntMsg), []) := by
  unfold getPaginated
  rw [validatePaginationParams_invalid page pageSize h]

/-- Witness for the amended C2 at `page = 0`. -/
theorem getPaginated_invalid_raises_witness :
    (¬((0 : Rat).den = 1 ∧ 0 < (0 : Rat).num) ∨
     ¬((25 : Rat).den = 1 ∧ 0 < (25 : Rat).num)) ∧
    getPaginated unitPageModel () none none 0 25 =
      (.error (.other invalidPosIntMsg), []) :=
  ⟨Or.inl (by decide),
   getPaginated_invalid_raises unitPageModel () none none 0 25
     (Or.inl (by decide))⟩

/-! ### Claim C3 -/

/-- C3: for every storage-layer fault raised during the fetch or the count
step, `getPaginated` returns the envelope `{success: false, data: absent,
total: 0, page, pageSize, message: error detail}` — no partial data is
surfaced (no `data` field is present on failure). -/
theorem getPaginated_fault_envelope {T W I O : Type}
    (model : PageModel T W I O) (whereClause : W)
    (includeClause : Option I) (orderByClause : Option O)
    (p ps : Nat) (hp : 1 ≤ p) (hps : 1 ≤ ps) (e : DbError) :
    (model.findMany
        ⟨whereClause, includeClause, orderByClause, (p - 1) * ps, ps⟩ =
          .error e →
      getPaginated model whereClause includeClause orderByClause
          (p : Rat) (ps : Rat) =
        (.ok { success := false, data? := none,
               message := generatePrismaErrorMessage e, total := 0,
               page := p, pageSize := ps },
         [.findMany ⟨whereClause, includeClause, orderByClause,
            (p - 1) * ps, ps⟩])) ∧
    (∀ rows : List T,
      model.findMany
          ⟨whereClause, includeClause, orderByClause, (p - 1) * ps, ps⟩ =
            .ok rows →
      model.count whereClause = .error e →
      getPaginated model whereClause includeClause orderByClause
          (p : Rat) (ps : Rat) =
        (.ok { success := false, data? := none,
               message := generatePrismaErrorMessage e, total := 0,
               page := p, pageSize := ps },
         [.findMany ⟨whereClause, includeClause, orderByClause,
            (p - 1) * ps, ps⟩,
          .count whereClause])) := by
  constructor
  · intro hfind
    unfold getPaginated
    rw [validatePaginationParams_natCast p ps hp hps]
    simp only []
    rw [hfind]
  · intro rows hfind hcount
    unfold getPaginated
    rw [validatePaginationParams_natCast p ps hp hps]
    simp only []
    rw [hfind, hcount]

/-- Witness for C3: a fetch fault and a count fault, each at `page = 1`,
`pageSize = 2`. -/
theorem getPaginated_fault_envelope_witness :
    (1 : Nat) ≤ 1 ∧ (1 : Nat) ≤ 2 ∧
    failFindModel.findMany ⟨(), none, none, (1 - 1) * 2, 2⟩ =
      .error (.knownRequest ("P2002") ("duplicate") ("hash")) ∧
    getPaginated failFindModel () none none ((1 : Nat) : Rat)
        ((2 : Nat) : Rat) =
      (.ok { success := false, data? := none,
             message := "Unique constraint violation: hash", total := 0,
             page := 1, pageSize := 2 },
       [.findMany ⟨(), none, none, (1 - 1) * 2, 2⟩]) ∧
    failCountModel.count () = .error (.other ("db down")) ∧
    getPaginated failCountModel () none none ((1 : Nat) : Rat)
        ((2 : Nat) : Rat) =
      (.ok { success := false, data? := none,
             message := "Unexpected error: db down", total := 0,
             page := 1, pageSize := 2 },
       [.findMany ⟨(), none, none, (1 - 1) * 2, 2⟩, .count ()]) :=
  ⟨by decide, by decide, rfl,
   (getPaginated_fault_envelope failFindModel () none none 1 2
      (by decide) (by decide)
      (.knownRequest ("P2002") ("duplicate") ("hash"))).1 rfl,
   rfl,
   (getPaginated_fault_envelope failCountModel () none none 1 2
      (by decide) (by decide) (.other ("db down"))).2 [7, 8] rfl rfl⟩

/-! ### Claim C5 -/

/-- A concrete `update` collaborator that raises a unique-constraint
fault. -/
def failingUpdate : Nat → List Nat → Except DbError MediaFileRow :=
  fun _ _ => .error (.knownRequest ("P2002") ("constraint failed") ("tags"))

/-- A concrete tag-store collaborator whose every operation raises. -/
def faultingTagStore : TagStoreModel :=
  { findUniqueByName := fun _ => .error (.other ("db down")),
    create := fun _ => .error (.other ("db down")) }

/-- C5 counterexample: `updateMediaFileTags` is a DBController operation
that is not a pagination-internal helper, yet a fault raised by its storage
collaborator escapes to the caller as a raised exception (the catch branch
calls `handlePrismaError`, which re-throws the standardized message) — it
is never converted into a `success:false` envelope. -/
theorem updateMediaFileTags_reraises_fault :
    updateMediaFileTags failingUpdate 5 [2] =
      .error (.other ("Unique constraint violation: tags")) := by
  rfl

/-- C5 amended: faults raised by the storage collaborator during
envelope-returning operations (represented here by `createTag`, whose whole
body sits inside try/catch) are caught at the operation boundary and
converted into a `success:false` envelope; but faults escape as raised
exceptions not only from pagination-internal helper paths: the
non-pagination operation `updateMediaFileTags` deliberately re-raises every
storage fault (with the standardized message) instead of returning an
envelope. -/
theorem dbFaults_envelope_except_reraising_ops :
    (∀ (m : TagStoreModel) (name : String) (e : DbError),
        m.findUniqueByName name = .error e →
        createTag m name =
          creationError TagRow (generatePrismaErrorMessage e)) ∧
    (∀ (m : TagStoreModel) (name : String) (e : DbError),
        m.findUniqueByName name = .ok none →
        m.create name = .error e →
        createTag m name =
          creationError TagRow (generatePrismaErrorMessage e)) ∧
    (∀ (update : Nat → List Nat → Except DbError MediaFileRow)
        (mediaFileID : Rat) (newTagIDs : List Rat)
        (vid : Nat) (vtags : List Nat) (e : DbError),
        positiveIntegerParse mediaFileID = .ok vid →
        nonEmptyArrayOfPositiveIntegersParse newTagIDs = .ok vtags →
        update vid vtags = .error e →
        updateMediaFileTags update mediaFileID newTagIDs =
          .error (.other (generatePrismaErrorMessage e))) := by
  refine ⟨?_, ?_, ?_⟩
  · intro m name e hm
    simp [createTag, hm]
  · intro m name e hm hc
    simp [createTag, hm, hc]
  · intro update mediaFileID newTagIDs vid vtags e hid htags hupd
    simp [updateMediaFileTags, hid, htags, hupd]

/-- Witness for the amended C5: the caught fault in `createTag` and the
re-raised fault in `updateMediaFileTags`, at concrete inputs. -/
theorem dbFaults_envelope_except_reraising_ops_witness :
    faultingTagStore.findUniqueByName ("x") = .error (.other ("db down")) ∧
    createTag faultingTagStore ("x") =
      creationError TagRow ("Unexpected error: db down") ∧
    positiveIntegerParse 5 = .ok 5 ∧
    nonEmptyArrayOfPositiveIntegersParse [2] = .ok [2] ∧
    failingUpdate 5 [2] =
      .error (.knownRequest ("P2002") ("constraint failed") ("tags")) ∧
    updateMediaFileTags failingUpdate 5 [2] =
      .error (.other ("Unique constraint violation: tags")) :=
  ⟨rfl,
   dbFaults_envelope_except_reraising_ops.1 faultingTagStore ("x")
     (.other ("db down")) rfl,
   rfl, rfl, rfl,
   dbFaults_envelope_except_reraising_ops.2.2 failingUpdate 5 [2] 5 [2]
     (.knownRequest ("P2002") ("constraint failed") ("tags")) rfl rfl rfl⟩

/-! ### Claim C9 -/

/-- C9: for every non-positive or non-integer `tagID` — including the
default value `-1` used when the argument is omitted — `getTagByID` raises
an exception (the positive-integer validation runs before its try/catch)
instead of returning a `RetrieveResult` envelope. -/
theorem getTagByID_invalid_raises
    (findUniqueById : Nat → Except DbError (Option TagRow)) (tagID : Rat)
    (h : ¬(tagID.den = 1 ∧ 0 < tagID.num)) :
    getTagByID findUniqueById tagID = .error (.other invalidPosIntMsg) ∧
    getTagByID findUniqueById = .error (.other invalidPosIntMsg) := by
  constructor
  · unfold getTagByID positiveIntegerParse
    rw [if_neg h]
  · rfl

/-- Witness for C9 at `tagID = 0` against a concrete collaborator. -/
theorem getTagByID_invalid_raises_witness :
    ¬((0 : Rat).den = 1 ∧ 0 < (0 : Rat).num) ∧
    getTagByID (fun i => .ok (some { id := i, name := "t" })) 0 =
      .error (.other invalidPosIntMsg) ∧
    getTagByID (fun i => .ok (some { id := i, name := "t" })) =
      .error (.other invalidPosIntMsg) :=
  ⟨by decide,
   (getTagByID_invalid_raises (fun i => .ok (some { id := i, name := "t" }))
     0 (by decide)).1,
   (getTagByID_invalid_raises (fun i => .ok (some { id := i, name := "t" }))
     0 (by decide)).2⟩

/-! ### Claim C10 -/

/-- C10: when `getMediaFilesWithTags` is called without an explicit `page`
argument, the page number defaults to `DEFAULT_PAGE_SIZE` (25), not
`DEFAULT_PAGE_NUMBER` (1): the call forwards to the engine with
`page = 25`, the issued fetch has `skip = (25 - 1) * 25 = 600` (the first
24 default-sized pages are skipped), and any envelope returned reports
`page = 25`. -/
theorem getMediaFilesWithTags_default_page_is_page_size
    (model : PageModel MediaFileRow (List Nat) MediaFileInclude Unit)
    (tagIDs : List Rat) (validTags : List Nat)
    (hv : nonEmptyArrayOfPositiveIntegersParse tagIDs = .ok validTags) :
    DEFAULT_PAGE_SIZE = 25 ∧ DEFAULT_PAGE_NUMBER = 1 ∧
    getMediaFilesWithTags model tagIDs =
      getPaginated model validTags (some DEFAULT_MEDIA_FILE_INCLUDES)
        (some ()) (DEFAULT_PAGE_SIZE : Rat) (DEFAULT_PAGE_SIZE : Rat) ∧
    (getMediaFilesWithTags model tagIDs).2.head? =
      some (.findMany ⟨validTags, some DEFAULT_MEDIA_FILE_INCLUDES,
        some (), (DEFAULT_PAGE_SIZE - 1) * DEFAULT_PAGE_SIZE,
        DEFAULT_PAGE_SIZE⟩) ∧
    (DEFAULT_PAGE_SIZE - 1) * DEFAULT_PAGE_SIZE = 600 ∧
    (∀ env, (getMediaFilesWithTags model tagIDs).1 = .ok env →
      env.page = DEFAULT_PAGE_SIZE) := by
  have hcall : getMediaFilesWithTags model tagIDs =
      getPaginated model validTags (some DEFAULT_MEDIA_FILE_INCLUDES)
        (some ()) (DEFAULT_PAGE_SIZE : Rat) (DEFAULT_PAGE_SIZE : Rat) := by
    unfold getMediaFilesWithTags
    rw [hv]
  refine ⟨rfl, rfl, hcall, ?_, by decide, ?_⟩
  · rw [hcall]
    unfold getPaginated
    rw [validatePaginationParams_natCast DEFAULT_PAGE_SIZE
      DEFAULT_PAGE_SIZE (by decide) (by decide)]
    cases hf : model.findMany ⟨validTags, some DEFAULT_MEDIA_FILE_INCLUDES,
        some (), (DEFAULT_PAGE_SIZE - 1) * DEFAULT_PAGE_SIZE,
        DEFAULT_PAGE_SIZE⟩ with
    | error e => simp [hf]
    | ok rows =>
      cases hc : model.count validTags with
      | error e => simp [hf, hc]
      | ok total => simp [hf, hc]
  · intro env henv
    rw [hcall] at henv
    unfold getPaginated at henv
    rw [validatePaginationParams_natCast DEFAULT_PAGE_SIZE
      DEFAULT_PAGE_SIZE (by decide) (by decide)] at henv
    cases hf : model.findMany ⟨validTags, some DEFAULT_MEDIA_FILE_INCLUDES,
        some (), (DEFAULT_PAGE_SIZE - 1) * DEFAULT_PAGE_SIZE,
        DEFAULT_PAGE_SIZE⟩ with
    | error e =>
      simp [hf] at henv
      rw [← henv]
    | ok rows =>
      cases hc : model.count validTags with
      | error e =>
        simp [hf, hc] at henv
        rw [← henv]
      | ok total =>
        simp [hf, hc] at henv
        rw [← henv]

/-- A concrete media-file storage collaborator with an empty table. -/
def emptyMediaFileModel :
    PageModel MediaFileRow (List Nat) MediaFileInclude Unit :=
  { findMany := fun _ => .ok [], count := fun _ => .ok 0 }

/-- Witness for C10 at `tagIDs = [1]` against the concrete empty
collaborator. -/
theorem getMediaFilesWithTags_default_page_witness :
    nonEmptyArrayOfPositiveIntegersParse [1] = .ok [1] ∧
    (DEFAULT_PAGE_SIZE = 25 ∧ DEFAULT_PAGE_NUMBER = 1 ∧
     getMediaFilesWithTags emptyMediaFileModel [1] =
       getPaginated emptyMediaFileModel [1]
         (some DEFAULT_MEDIA_FILE_INCLUDES) (some ())
         (DEFAULT_PAGE_SIZE : Rat) (DEFAULT_PAGE_SIZE : Rat) ∧
     (getMediaFilesWithTags emptyMediaFileModel [1]).2.head? =
       some (.findMany ⟨[1], some DEFAULT_MEDIA_FILE_INCLUDES, some (),
         (DEFAULT_PAGE_SIZE - 1) * DEFAULT_PAGE_SIZE, DEFAULT_PAGE_SIZE⟩) ∧
     (DEFAULT_PAGE_SIZE - 1) * DEFAULT_PAGE_SIZE = 600 ∧
     (∀ env, (getMediaFilesWithTags emptyMediaFileModel [1]).1 = .ok env →
       env.page = DEFAULT_PAGE_SIZE)) :=
  ⟨rfl,
   getMediaFilesWithTags_default_page_is_page_size emptyMediaFileModel
     [1] [1] rfl⟩

/-! ### Pagination over the list-semantics storage model (claims C6, C7) -/

/-- The data array of a pagination result (empty when the result was raised
or the envelope carries no data). -/
def pageData {T W I O : Type}
    (r : Except DbError (PaginatedResult T) × List (StorageCall W I O)) :
    List T :=
  match r.1 with
  | .ok env => env.data?.getD []
  | .error _ => []

/-- The reported total of a pagination result (zero when the result was
raised). -/
def pageTotal {T W I O : Type}
    (r : Except DbError (PaginatedResult T) × List (StorageCall W I O)) :
    Nat :=
  match r.1 with
  | .ok env => env.total
  | .error _ => 0

/-- Evaluation of the pagination engine over the list-semantics storage
model, at a positive natural page and page size: the envelope carries the
`skip`/`take` slice of the filtered rows and their total count. -/
theorem getPaginated_listModel {T : Type} (rows : List T) (pred : T → Bool)
    (p ps : Nat) (hp : 1 ≤ p) (hps : 1 ≤ ps) :
    getPaginated (listModel rows) pred none none (p : Rat) (ps : Rat) =
      (.ok { success := true,
             data? := some (((rows.filter pred).drop ((p - 1) * ps)).take ps),
             message := "Data retrieved successfully",
             total := (rows.filter pred).length,
             page := p, pageSize := ps },
       [.findMany ⟨pred, none, none, (p - 1) * ps, ps⟩, .count pred]) := by
  unfold getPaginated
  rw [validatePaginationParams_natCast p ps hp hps]
  rfl

/-- Summing `min ps (n - i * ps)` over `i` below `⌈n / ps⌉` recovers `n`:
the page lengths of an `n`-element result set partition it. -/
theorem sum_min_div_ceil (ps : Nat) (hps : 0 < ps) (n : Nat) :
    (Finset.range ((n + ps - 1) / ps)).sum
      (fun i => min ps (n - i * ps)) = n := by
  induction n using Nat.strong_induction_on with
  | _ n ih =>
    rcases Nat.eq_zero_or_pos n with hn | hn
    · subst hn
      have h0 : (0 + ps - 1) / ps = 0 := Nat.div_eq_of_lt (by omega)
      rw [h0]
      simp
    · have hpages : (n + ps - 1) / ps = (n - 1) / ps + 1 := by
        have h1 : n + ps - 1 = (n - 1) + ps := by omega
        rw [h1, Nat.add_div_right _ hps]
      rw [hpages, Finset.sum_range_succ']
      have htail : ∀ i : Nat,
          min ps (n - (i + 1) * ps) = min ps ((n - ps) - i * ps) := by
        intro i
        have h2 : (i + 1) * ps = i * ps + ps := by ring
        have h3 : n - (i + 1) * ps = (n - ps) - i * ps := by
          rw [h2]; omega
        rw [h3]
      rw [Finset.sum_congr rfl (fun i _ => htail i)]
      have hih := ih (n - ps) (by omega)
      have hq : ((n - ps) + ps - 1) / ps = (n - 1) / ps := by
        rcases le_or_lt ps n with h | h
        · congr 1
          omega
        · have e1 : n - ps = 0 := by omega
          rw [e1]
          have e2 : (0 + ps - 1) / ps = 0 := Nat.div_eq_of_lt (by omega)
          have e3 : (n - 1) / ps = 0 := Nat.div_eq_of_lt (by omega)
          rw [e2, e3]
      rw [hq] at hih
      rw [hih]
      simp only [Nat.zero_mul, Nat.sub_zero]
      rcases le_total ps n with h | h
      · rw [min_eq_left h]
        omega
      · rw [min_eq_right h]
        omega

/-- The ceiling page count times the page size covers the result set. -/
theorem ceil_mul_ge (ps n : Nat) (hps : 0 < ps) :
    n ≤ ((n + ps - 1) / ps) * ps := by
  rcases Nat.eq_zero_or_pos n with h0 | h0
  · omega
  · have h1 : n + ps - 1 = (n - 1) + ps := by omega
    rw [h1, Nat.add_div_right _ hps, Nat.add_mul, Nat.one_mul]
    have h2 := Nat.div_add_mod (n - 1) ps
    have h3 : (n - 1) % ps < ps := Nat.mod_lt _ hps
    rw [Nat.mul_comm ((n - 1) / ps) ps]
    omega

/-! ### Claim C6 -/

/-- C6: for every filter and every `pageSize ≥ 1`, with the store unchanged
between calls, the sum of the data lengths returned by `getPaginated` over
`page = 1 .. ⌈total / pageSize⌉` equals the total, and each of those
envelopes reports that same total. -/
theorem getPaginated_pages_cover_total {T : Type} (rows : List T)
    (pred : T → Bool) (ps : Nat) (hps : 1 ≤ ps) :
    (Finset.range (((rows.filter pred).length + ps - 1) / ps)).sum
        (fun i => (pageData (getPaginated (listModel rows) pred none none
          ((i + 1 : Nat) : Rat) (ps : Rat))).length)
      = (rows.filter pred).length ∧
    ∀ i ∈ Finset.range (((rows.filter pred).length + ps - 1) / ps),
      pageTotal (getPaginated (listModel rows) pred none none
        ((i + 1 : Nat) : Rat) (ps : Rat)) = (rows.filter pred).length := by
  constructor
  · have hcong : ∀ i ∈
        Finset.range (((rows.filter pred).length + ps - 1) / ps),
        (pageData (getPaginated (listModel rows) pred none none
          ((i + 1 : Nat) : Rat) (ps : Rat))).length =
          min ps ((rows.filter pred).length - i * ps) := by
      intro i _
      rw [getPaginated_listModel rows pred (i + 1) ps (by omega) hps]
      simp [pageData]
    rw [Finset.sum_congr rfl hcong]
    exact sum_min_div_ceil ps (by omega) _
  · intro i _
    rw [getPaginated_listModel rows pred (i + 1) ps (by omega) hps]
    rfl

/-- Witness for C6: three rows, page size two — lengths 2 and 1 sum to the
total 3, and both envelopes report total 3. -/
theorem getPaginated_pages_cover_total_witness :
    (1 : Nat) ≤ 2 ∧
    (Finset.range (((([0, 1, 2] : List Nat).filter
        (fun _ => true)).length + 2 - 1) / 2)).sum
        (fun i => (pageData (getPaginated (listModel [0, 1, 2])
          (fun _ => true) none none ((i + 1 : Nat) : Rat)
          ((2 : Nat) : Rat))).length)
      = (([0, 1, 2] : List Nat).filter (fun _ => true)).length ∧
    ∀ i ∈ Finset.range (((([0, 1, 2] : List Nat).filter
        (fun _ => true)).length + 2 - 1) / 2),
      pageTotal (getPaginated (listModel [0, 1, 2]) (fun _ => true)
        none none ((i + 1 : Nat) : Rat) ((2 : Nat) : Rat))
        = (([0, 1, 2] : List Nat).filter (fun _ => true)).length :=
  ⟨by decide,
   (getPaginated_pages_cover_total [0, 1, 2] (fun _ => true) 2
     (by decide)).1,
   (getPaginated_pages_cover_total [0, 1, 2] (fun _ => true) 2
     (by decide)).2⟩

/-! ### Claim C7 -/

/-- C7: for every filter and every valid `pageSize`, requesting a page
beyond the last page succeeds with `data` equal to the empty sequence
(present, not absent) and reports the same total as the page-1 request for
the identical filter. -/
theorem getPaginated_beyond_last_page {T : Type} (rows : List T)
    (pred : T → Bool) (p ps : Nat) (hps : 1 ≤ ps)
    (hbeyond : ((rows.filter pred).length + ps - 1) / ps < p) :
    (getPaginated (listModel rows) pred none none (p : Rat) (ps : Rat)).1 =
      .ok { success := true, data? := some [],
            message := "Data retrieved successfully",
            total := (rows.filter pred).length, page := p,
            pageSize := ps } ∧
    (getPaginated (listModel rows) pred none none ((1 : Nat) : Rat)
        (ps : Rat)).1 =
      .ok { success := true, data? := some ((rows.filter pred).take ps),
            message := "Data retrieved successfully",
            total := (rows.filter pred).length, page := 1,
            pageSize := ps } := by
  have hp : 1 ≤ p := Nat.lt_of_le_of_lt (Nat.zero_le _) hbeyond
  constructor
  · rw [getPaginated_listModel rows pred p ps hp hps]
    have hlen : (rows.filter pred).length ≤ (p - 1) * ps := by
      have hc := ceil_mul_ge ps (rows.filter pred).length (by omega)
      have hle : ((rows.filter pred).length + ps - 1) / ps ≤ p - 1 :=
        Nat.le_pred_of_lt hbeyond
      calc (rows.filter pred).length
          ≤ (((rows.filter pred).length + ps - 1) / ps) * ps := hc
        _ ≤ (p - 1) * ps := Nat.mul_le_mul_right ps hle
    rw [List.drop_eq_nil_of_le hlen]
    simp
  · rw [getPaginated_listModel rows pred 1 ps (by omega) hps]
    simp

/-- Witness for C7: three matching rows, page size two, page three is beyond
the last page. -/
theorem getPaginated_beyond_last_page_witness :
    (1 : Nat) ≤ 2 ∧
    ((([0, 1, 2] : List Nat).filter (fun _ => true)).length + 2 - 1) / 2
      < 3 ∧
    (getPaginated (listModel [0, 1, 2]) (fun _ => true) none none
        ((3 : Nat) : Rat) ((2 : Nat) : Rat)).1 =
      .ok { success := true, data? := some [],
            message := "Data retrieved successfully",
            total := (([0, 1, 2] : List Nat).filter (fun _ => true)).length,
            page := 3, pageSize := 2 } ∧
    (getPaginated (listModel [0, 1, 2]) (fun _ => true) none none
        ((1 : Nat) : Rat) ((2 : Nat) : Rat)).1 =
      .ok { success := true,
            data? := some ((([0, 1, 2] : List Nat).filter
              (fun _ => true)).take 2),
            message := "Data retrieved successfully",
            total := (([0, 1, 2] : List Nat).filter (fun _ => true)).length,
            page := 1, pageSize := 2 } :=
  ⟨by decide, by decide,
   (getPaginated_beyond_last_page [0, 1, 2] (fun _ => true) 3 2
     (by decide) (by decide)).1,
   (getPaginated_beyond_last_page [0, 1, 2] (fun _ => true) 3 2
     (by decide) (by decide)).2⟩

/-! ### Claim C4 -/

/-- C4 counterexample: a store state reachable under the schema's unique
composite index (`@@unique([name, parentId, websiteId])`, `schema.prisma`
line 82) in which two boards of the same website share a name — they hang
under different parents, which the triple index permits.  Hence the pair
`(name, websiteID)` is NOT unique across boards in every reachable state. -/
theorem boards_name_website_pair_not_unique :
    ReachableBoards
      [{ id := 4, name := "c", parentId := some 2, websiteId := 1 },
       { id := 3, name := "c", parentId := some 1, websiteId := 1 },
       { id := 2, name := "p2", parentId := none, websiteId := 1 },
       { id := 1, name := "p1", parentId := none, websiteId := 1 }] ∧
    ¬ ([{ id := 4, name := "c", parentId := some 2, websiteId := 1 },
        { id := 3, name := "c", parentId := some 1, websiteId := 1 },
        { id := 2, name := "p2", parentId := none, websiteId := 1 },
        { id := 1, name := "p1", parentId := none, websiteId := 1 }] :
        List BoardRow).Pairwise
      (fun b c => ¬(b.name = c.name ∧ b.websiteId = c.websiteId)) := by
  constructor
  · exact .insert _ _
      (.insert _ _
        (.insert _ _
          (.insert _ _ .nil (by decide))
          (by decide))
        (by decide))
      (by decide)
  · decide

/-- C4 amended: the unique composite index on `Board` is
`@@unique([name, parentId, websiteId])`, and under the NULL-distinct
unique-index semantics of the schema's SQLite datasource it constrains only
boards with a non-null parent: in every reachable store state, no two
boards with a parent share all three of name, parentId and websiteId.
Boards with the same name in one website may coexist under different
parents, and root boards (NULL `parentId`) are not constrained by the index
at all. -/
theorem reachable_boards_triple_unique (bs : List BoardRow)
    (h : ReachableBoards bs) :
    bs.Pairwise (fun b c => b.parentId.isSome = true →
      ¬(b.name = c.name ∧ b.parentId = c.parentId ∧
        b.websiteId = c.websiteId)) := by
  induction h with
  | nil => exact List.Pairwise.nil
  | insert bs b h hu ih =>
    refine List.Pairwise.cons ?_ ih
    intro c hc hsome hcon
    rcases hcon with ⟨h1, h2, h3⟩
    have hconf : boardIndexConflict bs b = true := by
      unfold boardIndexConflict
      rw [Bool.and_eq_true]
      exact ⟨hsome, List.any_eq_true.mpr ⟨c, hc, by simp [h1, h2, h3]⟩⟩
    simp [hu] at hconf

/-- Witness for the amended C4 at a concrete reachable two-board state (a
root board and a child board sharing a name on one website). -/
theorem reachable_boards_triple_unique_witness :
    ReachableBoards
      [{ id := 2, name := "a", parentId := some 1, websiteId := 1 },
       { id := 1, name := "a", parentId := none, websiteId := 1 }] ∧
    ([{ id := 2, name := "a", parentId := some 1, websiteId := 1 },
      { id := 1, name := "a", parentId := none, websiteId := 1 }] :
      List BoardRow).Pairwise
      (fun b c => b.parentId.isSome = true →
        ¬(b.name = c.name ∧ b.parentId = c.parentId ∧
          b.websiteId = c.websiteId)) :=
  ⟨.insert _ _ (.insert _ _ .nil (by decide)) (by decide),
   reachable_boards_triple_unique _
     (.insert _ _ (.insert _ _ .nil (by decide)) (by decide))⟩

/-! ### Claim C8 -/

/-- After `ensureTag`, a tag with the requested name is present. -/
theorem ensureTag_contains (tags : List TagRow) (name : String) :
    (ensureTag tags name).any (fun t => t.name == name) = true := by
  rw [List.any_eq_true]
  unfold ensureTag
  cases ht : tags.find? (fun t => t.name == name) with
  | some tag =>
    exact ⟨tag, List.mem_of_find?_eq_some ht,
      by simpa using List.find?_some ht⟩
  | none =>
    exact ⟨{ id := nextId (tags.map (fun t => t.id)), name := name },
      by simp, by simp⟩

/-- After the success tail of board creation, a tag named after the board
is present in the store. -/
theorem finishBoardCreate_tag (store : Store) (boardName : String)
    (websiteId : Nat) (parentId : Option Nat) :
    ((finishBoardCreate store boardName websiteId
      parentId).2.tags.any (fun t => t.name == boardName)) = true := by
  unfold finishBoardCreate
  exact ensureTag_contains store.tags boardName

/-- C8: whenever `createWebsiteBoard` returns an envelope with
`created: true`, a `Tag` whose name equals the new board's name exists in
the store afterwards — the operation creates that tag as a side effect if
it did not already exist. -/
theorem createWebsiteBoard_created_implies_tag (store : Store)
    (websiteID : Rat) (boardName : String)
    (parentBoardName : Option String)
    (h : (createWebsiteBoard store websiteID boardName
      parentBoardName).1.created = true) :
    ((createWebsiteBoard store websiteID boardName
      parentBoardName).2.tags.any (fun t => t.name == boardName)) =
        true := by
  obtain ⟨q, hq⟩ : ∃ q,
      createWebsiteBoard store websiteID boardName parentBoardName = q :=
    ⟨_, rfl⟩
  rw [hq] at h ⊢
  unfold createWebsiteBoard at hq
  split at hq
  · rw [← hq] at h
    simp [creationError] at h
  · split at hq
    · rw [← hq] at h
      simp [creationFailure] at h
    · split at hq
      · rw [← hq] at h
        simp [creationFoundPrexisting] at h
      · split at hq
        · rw [← hq]
          exact finishBoardCreate_tag store boardName _ none
        · split at hq
          · rw [← hq] at h
            simp [creationFailure] at h
          · rw [← hq]
            exact finishBoardCreate_tag store boardName _ _

/-- A concrete store with one website and empty board and tag tables. -/
def oneWebsiteStore : Store :=
  { websites := [{ id := 1, url := "https://example.com" }],
    boards := [], tags := [] }

/-- Witness for C8: creating a board on the concrete store succeeds with
`created: true`, and a tag named after the board exists afterwards. -/
theorem createWebsiteBoard_created_implies_tag_witness :
    (createWebsiteBoard oneWebsiteStore 1 ("b") none).1.created = true ∧
    ((createWebsiteBoard oneWebsiteStore 1 ("b") none).2.tags.any
      (fun t => t.name == ("b" : String))) = true :=
  ⟨by decide,
   createWebsiteBoard_created_implies_tag oneWebsiteStore 1 ("b") none
     (by decide)⟩

end AssetsMgr
